import Mathlib

/-!
Shallow embedding of `docker_network_collector.py` (Docker Network Collector):
an inventory resolver over the Docker runtime and three output drivers
(Prometheus gauge sink, InfluxDB push sink, local one-shot JSON output),
together with the command-line startup logic, and theorems about them.
-/

namespace DNC

/-- The connection metadata of one network attachment, the value found in a
container's `attrs["NetworkSettings"]["Networks"]` mapping.  A `none` field
models an absent dictionary key, so that `dict.get` returns Python `None`
(source lines 43-44 use `net_info.get("IPAddress")` / `net_info.get("MacAddress")`
with no default). -/
structure NetInfo where
  ipAddress : Option String
  macAddress : Option String
  deriving DecidableEq

/-- One running container as returned by `client.containers.list()`: its name
and its `NetworkSettings.Networks` mapping, modelled as an association list in
the dict's iteration (insertion) order; a Python dict has distinct keys. -/
structure ContainerRec where
  name : String
  networks : List (String × NetInfo)
  deriving DecidableEq

/-- The value stored for one retained attachment by the inner dict
comprehension (source lines 41-45). -/
structure IfaceInfo where
  eth_interface : String
  ip_address : Option String
  mac_address : Option String
  deriving DecidableEq

/-- Model of `relevant_networks` (source lines 33-37): the attachments whose network
name is a member of `self.network_names`, in iteration order. -/
def relevantNetworks (network_names : List String) (c : ContainerRec) :
    List (String × NetInfo) :=
  c.networks.filter (fun p => decide (p.1 ∈ network_names))

/-- The per-container dict comprehension (source lines 40-49): each retained
attachment keyed by network name, valued by the synthetic interface id
`eth<idx>` — `idx` the zero-based `enumerate` position within the retained
set — and the `IPAddress` / `MacAddress` metadata. -/
def containerEntry (network_names : List String) (c : ContainerRec) :
    List (String × IfaceInfo) :=
  (relevantNetworks network_names c).enum.map (fun ip =>
    (ip.2.1,
     { eth_interface := "eth" ++ Nat.repr ip.1,
       ip_address := ip.2.2.ipAddress,
       mac_address := ip.2.2.macAddress }))

/-- The resolver's Inventory: container name to retained attachments, in
iteration order. -/
abbrev Inventory := List (String × List (String × IfaceInfo))

/-- The loop over a successfully listed set of containers (source lines
27-49): a container whose retained set is empty is skipped entirely. -/
def inventoryOf (network_names : List String) (containers : List ContainerRec) :
    Inventory :=
  containers.filterMap (fun c =>
    if (relevantNetworks network_names c).isEmpty then none
    else some (c.name, containerEntry network_names c))

/-- Failures of the runtime query.  `docker-py` raises `docker.errors.APIError`
for errors reported by the daemon over HTTP; loss of connectivity to the
daemon surfaces as a `requests` connection error, which is not an
`APIError` (APIError subclasses `requests.exceptions.HTTPError`). -/
inductive DockerError where
  | apiError (msg : String)
  | connectionError (msg : String)
  deriving DecidableEq

/-- Model of `get_container_network_interfaces` (source lines 20-55), with the runtime
query's outcome passed in.  Returns the computed result — or the uncaught,
propagating exception — paired with the printed log lines.  Only
`docker.errors.APIError` is caught (line 51); it is logged and turned into the
empty mapping. -/
def get_container_network_interfaces (network_names : List String)
    (query : Except DockerError (List ContainerRec)) :
    Except DockerError Inventory × List String :=
  match query with
  | .ok containers => (.ok (inventoryOf network_names containers), [])
  | .error (.apiError m) => (.ok [], ["Error accessing Docker API: " ++ m])
  | .error (.connectionError m) => (.error (.connectionError m), [])

/-- The label values of one published `container_network_interface` series
(source lines 78-84). -/
structure SeriesLabels where
  container_name : String
  network_name : String
  eth_interface : String
  ip_address : String
  mac_address : String
  deriving DecidableEq

/-- Python `str()` as `prometheus_client` applies it to every label value: a
missing address is the `None` object and renders as the string `"None"`. -/
def pyStr : Option String → String
  | some s => s
  | none => "None"

/-- The series published from one Inventory: the two nested `for` loops of
`run_prometheus_exporter` (source lines 76-84). -/
def gaugeSeries (inv : Inventory) : List SeriesLabels :=
  inv.flatMap (fun cn => cn.2.map (fun nn =>
    { container_name := cn.1,
      network_name := nn.1,
      eth_interface := nn.2.eth_interface,
      ip_address := pyStr nn.2.ip_address,
      mac_address := pyStr nn.2.mac_address }))

/-- One iteration of the `while True` loop of `run_prometheus_exporter`
(source lines 72-86): `_metrics.clear()` discards the previously published
series, then the fresh Inventory is published on top of the cleared state. -/
def promCycleBody (_prev : List SeriesLabels) (inv : Inventory) :
    List SeriesLabels :=
  let cleared : List SeriesLabels := []
  cleared ++ gaugeSeries inv

/-- The published series after cycle `n` of the gauge-sink loop, given the
stream of per-cycle Inventories. -/
def promLoop (invs : Nat → Inventory) : Nat → List SeriesLabels
  | 0 => promCycleBody [] (invs 0)
  | n + 1 => promCycleBody (promLoop invs n) (invs (n + 1))

/-- An InfluxDB point as built in `run_influxdb_exporter` (source lines
113-120): three tags and two fields. -/
structure Point where
  measurement : String
  container_name : String
  network_name : String
  eth_interface : String
  ip_address : Option String
  mac_address : Option String
  deriving DecidableEq

/-- The points of one InfluxDB cycle in write order: the two nested `for`
loops of `run_influxdb_exporter` (source lines 111-126). -/
def pointsOf (inv : Inventory) : List Point :=
  inv.flatMap (fun cn => cn.2.map (fun nn =>
    { measurement := "container_network_interface",
      container_name := cn.1,
      network_name := nn.1,
      eth_interface := nn.2.eth_interface,
      ip_address := nn.2.ip_address,
      mac_address := nn.2.mac_address }))

/-- The write sequence of one InfluxDB cycle.  `write_api.write` (source line
122) is wrapped in no per-point handler: a failing write raises, the remaining
points of the cycle are never attempted, and the exception propagates out of
the `while` loop (the surrounding `try` catches only `ImportError`, line 130).
Returns the points actually attempted and the propagating error, if any. -/
def influxCycleAttempts (write : Point → Except String Unit) :
    List Point → List Point × Option String
  | [] => ([], none)
  | p :: ps =>
    match write p with
    | .ok _ => let r := influxCycleAttempts write ps; (p :: r.1, r.2)
    | .error e => ([p], some e)

/-- The four `INFLUXDB_*` environment variables; `none` models an unset
variable. -/
structure Env where
  influxdb_url : Option String
  influxdb_token : Option String
  influxdb_org : Option String
  influxdb_bucket : Option String
  deriving DecidableEq

/-- Model of `influx_config` as read in `main` (source lines 200-205).  The URL is read
with the default `"http://localhost:8086"`; the other three variables are read
with no default, so an unset one stays `None`. -/
def influx_config_of (env : Env) : List (String × Option String) :=
  [("url", some (env.influxdb_url.getD "http://localhost:8086")),
   ("token", env.influxdb_token),
   ("org", env.influxdb_org),
   ("bucket", env.influxdb_bucket)]

/-- Model of `missing_vars` (source lines 208-210): the keys of `influx_config` whose
value is `None`, in dict order. -/
def missing_vars (env : Env) : List String :=
  (influx_config_of env).filterMap (fun kv => if kv.2.isNone then some kv.1 else none)

/-- Python `sep.join(parts)`, as used by `", ".join(missing_vars)` (source
line 213) and by the JSON renderer. -/
def joinSep (sep : String) : List String → String
  | [] => ""
  | [s] => s
  | s :: s2 :: rest => s ++ sep ++ joinSep sep (s2 :: rest)

/-- The InfluxDB startup check of `main` (source lines 207-217): if any
variable besides the defaulted URL is unset, print the error naming every
missing variable and exit with code 1; otherwise the configuration is
accepted. -/
def influxStartup (env : Env) :
    Except (String × Nat) (List (String × Option String)) :=
  if missing_vars env = [] then .ok (influx_config_of env)
  else .error
    ("Error: Missing required environment variables: "
       ++ joinSep ", " (missing_vars env), 1)

/-- A JSON string literal, as `json.dumps` renders a Python `str`. -/
def jsonStr (s : String) : String := "\"" ++ s ++ "\""

/-- How `json.dumps` renders an optional string: Python `None` becomes
`null`. -/
def jsonOptStr : Option String → String
  | some s => jsonStr s
  | none => "null"

/-- One attachment object as rendered by `json.dumps(interfaces, indent=2)` at
nesting depth two: keys in dict insertion order (source lines 42-44). -/
def renderNet (nn : String × IfaceInfo) : String :=
  "    " ++ jsonStr nn.1 ++ ": \x7b\n"
    ++ "      " ++ jsonStr "eth_interface" ++ ": " ++ jsonStr nn.2.eth_interface ++ ",\n"
    ++ "      " ++ jsonStr "ip_address" ++ ": " ++ jsonOptStr nn.2.ip_address ++ ",\n"
    ++ "      " ++ jsonStr "mac_address" ++ ": " ++ jsonOptStr nn.2.mac_address ++ "\n"
    ++ "    \x7d"

/-- One container object as rendered by `json.dumps(interfaces, indent=2)` at
nesting depth one (resolver output entries always hold at least one
attachment). -/
def renderContainer (cn : String × List (String × IfaceInfo)) : String :=
  "  " ++ jsonStr cn.1 ++ ": \x7b\n" ++ joinSep ",\n" (cn.2.map renderNet)
    ++ "\n  \x7d"

/-- Model of `json.dumps(interfaces, indent=2)` (source line 139) on an Inventory. -/
def jsonDumps (inv : Inventory) : String :=
  if inv.isEmpty then "\x7b\x7d"
  else "\x7b\n" ++ joinSep ",\n" (inv.map renderContainer) ++ "\n\x7d"

/-- Model of `run_local_output` (source lines 135-141).  The driver consults the
runtime-query stream only at index 0: one resolver call, no loop.  Output is
the list of printed lines (resolver log lines first); an uncaught resolver
exception propagates. -/
def run_local_output (network_names : List String)
    (query : Nat → Except DockerError (List ContainerRec)) :
    Except DockerError (List String) :=
  match get_container_network_interfaces network_names (query 0) with
  | (.error e, _) => .error e
  | (.ok interfaces, logs) =>
    .ok (logs ++
      [if interfaces.isEmpty then "No containers found in the specified networks."
       else jsonDumps interfaces])

/-- A Python value appearing in `**kwargs` of `set_mode`. -/
inductive PyVal where
  | int (n : Int)
  | str (s : String)
  deriving DecidableEq

/-- The mutable state of a `DockerNetworkCollector` instance (source lines
13-18, minus the runtime client handle). -/
structure CollectorState where
  network_names : List String
  mode : String
  prometheus_port : Option PyVal
  influx_config : Option (List (String × PyVal))
  deriving DecidableEq

/-- Model of `DockerNetworkCollector.__init__` (source lines 13-18). -/
def init (network_names : List String) : CollectorState :=
  { network_names := network_names,
    mode := "local",
    prometheus_port := none,
    influx_config := none }

/-- Python `kwargs.get(key)`: the value under `key`, or `None` when the key is
absent. -/
def kwargsGet (kwargs : List (String × PyVal)) (key : String) : Option PyVal :=
  (kwargs.find? (fun p => p.1 = key)).map Prod.snd

/-- Model of `set_mode` (source lines 143-149): always stores the mode; stores
`kwargs.get("port")` only in the `"prometheus"` branch and the whole kwargs
dict only in the `"influxdb"` branch. -/
def set_mode (st : CollectorState) (mode : String)
    (kwargs : List (String × PyVal)) : CollectorState :=
  let st1 := { st with mode := mode }
  if mode = "prometheus" then
    { st1 with prometheus_port := kwargsGet kwargs "port" }
  else if mode = "influxdb" then
    { st1 with influx_config := some kwargs }
  else st1

/-- The three code paths `run` can dispatch to. -/
inductive RunPath where
  | prometheusExporter
  | influxdbExporter
  | localOutput
  deriving DecidableEq

/-- Model of `run` (source lines 151-158): dispatch on the configured mode, with the
local one-shot output as the fall-through branch. -/
def run (st : CollectorState) : RunPath :=
  if st.mode = "prometheus" then .prometheusExporter
  else if st.mode = "influxdb" then .influxdbExporter
  else .localOutput

/-- String containment: the needle's characters occur contiguously inside the
haystack. -/
def occursIn (needle hay : String) : Prop := needle.data <:+: hay.data

/-- Parse one decimal digit character back to its value. -/
def chVal (c : Char) : Nat :=
  if c = '0' then 0 else if c = '1' then 1 else if c = '2' then 2
  else if c = '3' then 3 else if c = '4' then 4 else if c = '5' then 5
  else if c = '6' then 6 else if c = '7' then 7 else if c = '8' then 8 else 9

/-- Value of a big-endian decimal digit string. -/
def valOfDigits (l : List Char) : Nat := l.foldl (fun a c => a * 10 + chVal c) 0



theorem toDigitsCore_acc (b : Nat) (f : Nat) :
    ∀ (n : Nat) (ds : List Char),
      Nat.toDigitsCore b f n ds = Nat.toDigitsCore b f n [] ++ ds := by
  induction f with
  | zero => intro n ds; rfl
  | succ f ih =>
    intro n ds
    simp only [Nat.toDigitsCore]
    by_cases h : n / b = 0
    · simp [h]
    · rw [if_neg h, if_neg h, ih (n / b) (Nat.digitChar (n % b) :: ds),
        ih (n / b) [Nat.digitChar (n % b)], List.append_assoc]
      rfl

theorem chVal_digitChar (d : Nat) (h : d < 10) :
    chVal (Nat.digitChar d) = d := by
  interval_cases d <;> rfl

theorem valOfDigits_append_singleton (l : List Char) (c : Char) :
    valOfDigits (l ++ [c]) = valOfDigits l * 10 + chVal c := by
  simp [valOfDigits, List.foldl_append]

theorem valOf_toDigitsCore (f : Nat) :
    ∀ n : Nat, n < f → valOfDigits (Nat.toDigitsCore 10 f n []) = n := by
  induction f with
  | zero => intro n hn; omega
  | succ f ih =>
    intro n hn
    simp only [Nat.toDigitsCore]
    by_cases h : n / 10 = 0
    · rw [if_pos h]
      have h10 : n % 10 < 10 := Nat.mod_lt _ (by norm_num)
      simp [valOfDigits, chVal_digitChar _ h10]
      omega
    · rw [if_neg h, toDigitsCore_acc]
      rw [valOfDigits_append_singleton]
      rw [ih (n / 10) (by omega)]
      rw [chVal_digitChar _ (Nat.mod_lt _ (by norm_num))]
      omega

theorem natRepr_injective : Function.Injective Nat.repr := by
  intro m n h
  have hd : Nat.toDigitsCore 10 (m + 1) m [] = Nat.toDigitsCore 10 (n + 1) n [] := by
    have := congrArg String.data h
    simpa [Nat.repr, Nat.toDigits, List.asString] using this
  have hm := valOf_toDigitsCore (m + 1) m (by omega)
  have hn := valOf_toDigitsCore (n + 1) n (by omega)
  rw [← hm, ← hn, hd]

theorem ethId_injective : Function.Injective (fun i : Nat => "eth" ++ Nat.repr i) := by
  intro a b h
  apply natRepr_injective
  have hdata := congrArg String.data h
  simp only [String.data_append] at hdata
  have := List.append_cancel_left hdata
  exact String.ext this



theorem occursIn_of_append (A B C : String) : occursIn B (A ++ B ++ C) := by
  refine ⟨A.data, C.data, ?_⟩
  simp [String.data_append]

theorem occursIn_append_of_right (n A B : String) (h : occursIn n B) :
    occursIn n (A ++ B) := by
  obtain ⟨s, t, hst⟩ := h
  exact ⟨A.data ++ s, t, by simp [String.data_append, ← hst]⟩

theorem occursIn_append_of_left (n A B : String) (h : occursIn n A) :
    occursIn n (A ++ B) := by
  obtain ⟨s, t, hst⟩ := h
  exact ⟨s, t ++ B.data, by simp [String.data_append, ← hst]⟩

theorem occursIn_self (s : String) : occursIn s s := List.infix_refl _

theorem occursIn_trans (a b c : String) (h1 : occursIn a b) (h2 : occursIn b c) :
    occursIn a c := List.IsInfix.trans h1 h2

theorem joinSep_mem (sep : String) (l : List String) (x : String) (hx : x ∈ l) :
    occursIn x (joinSep sep l) := by
  induction l with
  | nil => simp at hx
  | cons h tl ih =>
    cases tl with
    | nil =>
      simp at hx
      subst hx
      exact occursIn_self _
    | cons h2 t2 =>
      rcases List.mem_cons.mp hx with rfl | hmem
      · show occursIn x (x ++ sep ++ joinSep sep (h2 :: t2))
        exact occursIn_append_of_left _ _ _
          (occursIn_append_of_left _ _ _ (occursIn_self _))
      · show occursIn x (h ++ sep ++ joinSep sep (h2 :: t2))
        exact occursIn_append_of_right _ _ _ (ih hmem)







theorem containerEntry_eth_ids (network_names : List String) (c : ContainerRec) :
    (containerEntry network_names c).map (fun p => p.2.eth_interface)
      = (List.range (relevantNetworks network_names c).length).map
          (fun i => "eth" ++ Nat.repr i) := by
  unfold containerEntry
  rw [List.map_map, ← List.enum_map_fst (relevantNetworks network_names c),
    List.map_map]
  rfl

theorem containerEntry_length (network_names : List String) (c : ContainerRec) :
    (containerEntry network_names c).length
      = (relevantNetworks network_names c).length := by
  simp [containerEntry, List.enum_length]

theorem containerEntry_netName_mem (network_names : List String)
    (c : ContainerRec) (att : String × IfaceInfo)
    (h : att ∈ containerEntry network_names c) : att.1 ∈ network_names := by
  unfold containerEntry at h
  obtain ⟨ip, hip, heq⟩ := List.mem_map.mp h
  have h2 : ip.2 ∈ (relevantNetworks network_names c).enum.map Prod.snd :=
    List.mem_map_of_mem Prod.snd hip
  rw [List.enum_map_snd] at h2
  have := (List.mem_filter.mp h2).2
  have h1 : att.1 = ip.2.1 := by rw [← heq]
  rw [h1]
  exact of_decide_eq_true this

theorem mem_inventoryOf (network_names : List String)
    (containers : List ContainerRec) (entry : String × List (String × IfaceInfo)) :
    entry ∈ inventoryOf network_names containers ↔
      ∃ c ∈ containers, (relevantNetworks network_names c).isEmpty = false
        ∧ entry = (c.name, containerEntry network_names c) := by
  unfold inventoryOf
  rw [List.mem_filterMap]
  constructor
  · rintro ⟨c, hc, hsome⟩
    by_cases h : (relevantNetworks network_names c).isEmpty
    · simp [h] at hsome
    · refine ⟨c, hc, by simpa using h, ?_⟩
      simp [h] at hsome
      exact hsome.symm
  · rintro ⟨c, hc, hne, rfl⟩
    exact ⟨c, hc, by simp [hne]⟩



/-- C4: in the Resolver's output every container entry with k matching
networks carries the synthetic ids eth0 … eth(k-1), in order, with no gaps or
duplicates, the index being the zero-based position of the network within the
filtered, retained set in runtime iteration order. -/
theorem eth_ids_are_positional (network_names : List String)
    (query : Except DockerError (List ContainerRec)) (inv : Inventory)
    (entry : String × List (String × IfaceInfo))
    (hq : (get_container_network_interfaces network_names query).1 = Except.ok inv)
    (hmem : entry ∈ inv) :
    entry.2.map (fun p => p.2.eth_interface)
        = (List.range entry.2.length).map (fun i => "eth" ++ Nat.repr i)
      ∧ 1 ≤ entry.2.length
      ∧ (entry.2.map (fun p => p.2.eth_interface)).Nodup
      ∧ ∃ containers, query = Except.ok containers ∧ ∃ c ∈ containers,
          entry = (c.name, containerEntry network_names c)
          ∧ entry.2.length = (relevantNetworks network_names c).length := by
  match query with
  | .error (.connectionError m) => simp [get_container_network_interfaces] at hq
  | .error (.apiError m) =>
    simp [get_container_network_interfaces] at hq
    rw [hq] at hmem
    simp at hmem
  | .ok containers =>
    simp [get_container_network_interfaces] at hq
    rw [← hq] at hmem
    obtain ⟨c, hc, hne, rfl⟩ := (mem_inventoryOf _ _ _).mp hmem
    have hlen : (containerEntry network_names c).length
        = (relevantNetworks network_names c).length := containerEntry_length _ _
    have hids := containerEntry_eth_ids network_names c
    refine ⟨by rw [hlen]; exact hids, ?_, ?_, containers, rfl, c, hc, rfl, hlen⟩
    · rw [hlen]
      have : relevantNetworks network_names c ≠ [] := by
        intro h0; rw [h0] at hne; simp at hne
      have := List.length_pos.mpr this
      omega
    · rw [hids]
      exact (List.nodup_range _).map (fun a b h => ethId_injective h)

theorem eth_ids_are_positional_witness :
    ((get_container_network_interfaces ["netA", "netB"]
        (Except.ok [⟨"c1", [("netB", ⟨some "10.0.0.2", some "aa"⟩),
                            ("other", ⟨some "10.9.9.9", some "zz"⟩),
                            ("netA", ⟨none, some "bb"⟩)]⟩])).1
      = Except.ok [("c1", [("netB", ⟨"eth0", some "10.0.0.2", some "aa"⟩),
                           ("netA", ⟨"eth1", none, some "bb"⟩)])])
    ∧ ([("netB", (⟨"eth0", some "10.0.0.2", some "aa"⟩ : IfaceInfo)),
        ("netA", ⟨"eth1", none, some "bb"⟩)].map (fun p => p.2.eth_interface)
        = ["eth0", "eth1"]) := by
  constructor
  · rfl
  · have := eth_ids_are_positional ["netA", "netB"]
      (Except.ok [⟨"c1", [("netB", ⟨some "10.0.0.2", some "aa"⟩),
                          ("other", ⟨some "10.9.9.9", some "zz"⟩),
                          ("netA", ⟨none, some "bb"⟩)]⟩])
      [("c1", [("netB", ⟨"eth0", some "10.0.0.2", some "aa"⟩),
               ("netA", ⟨"eth1", none, some "bb"⟩)])]
      ("c1", [("netB", ⟨"eth0", some "10.0.0.2", some "aa"⟩),
              ("netA", ⟨"eth1", none, some "bb"⟩)])
      rfl (by simp)
    rw [this.1]
    rfl



/-- C5: every network name in the Resolver's output is in the allow-list, and
(container names being unique, as Docker guarantees) a container with zero
matching networks is absent from the result mapping. -/
theorem resolver_allow_list (network_names : List String)
    (query : Except DockerError (List ContainerRec)) (inv : Inventory)
    (hq : (get_container_network_interfaces network_names query).1 = Except.ok inv) :
    (∀ entry ∈ inv, ∀ att ∈ entry.2, att.1 ∈ network_names)
    ∧ ∀ containers, query = Except.ok containers →
        (containers.map ContainerRec.name).Nodup →
        ∀ c ∈ containers, relevantNetworks network_names c = [] →
          ∀ entry ∈ inv, entry.1 ≠ c.name := by
  match query with
  | .error (.connectionError m) => simp [get_container_network_interfaces] at hq
  | .error (.apiError m) =>
    simp [get_container_network_interfaces] at hq
    subst hq
    constructor
    · intro entry h; simp at h
    · intro containers h; simp at h
  | .ok containers0 =>
    simp [get_container_network_interfaces] at hq
    subst hq
    constructor
    · intro entry hmem att hatt
      obtain ⟨c, _, _, rfl⟩ := (mem_inventoryOf _ _ _).mp hmem
      exact containerEntry_netName_mem _ _ _ hatt
    · intro containers hco hnd c hc hrel entry hmem heq
      injection hco with h
      subst h
      obtain ⟨c', hc', hne, rfl⟩ := (mem_inventoryOf _ _ _).mp hmem
      have hcc : c' = c := List.inj_on_of_nodup_map hnd hc' hc heq
      rw [hcc, hrel] at hne
      simp at hne



/-- C3 counterexample: a runtime-query failure that is not a Docker
`APIError` — connectivity loss to the daemon — propagates out of
`get_container_network_interfaces` uncaught and unlogged, so the Resolver does
not return the empty mapping for every failure. -/
theorem resolver_connection_error_propagates :
    get_container_network_interfaces ["bridge"]
        (Except.error (DockerError.connectionError "docker daemon unreachable"))
      = (Except.error (DockerError.connectionError "docker daemon unreachable"),
         []) := rfl

/-- C3 amended: for a Docker `APIError` failure of the runtime query the
Resolver returns the empty mapping and logs the error instead of raising. -/
theorem resolver_api_error_returns_empty (network_names : List String)
    (m : String) :
    get_container_network_interfaces network_names
        (Except.error (DockerError.apiError m))
      = (Except.ok [], ["Error accessing Docker API: " ++ m]) := rfl

theorem promLoop_eq (invs : Nat → Inventory) (n : Nat) :
    promLoop invs n = gaugeSeries (invs n) := by
  cases n <;> rfl

theorem gaugeSeries_container_mem (inv : Inventory) (s : SeriesLabels)
    (h : s ∈ gaugeSeries inv) : s.container_name ∈ inv.map Prod.fst := by
  unfold gaugeSeries at h
  obtain ⟨cn, hcn, hs⟩ := List.mem_flatMap.mp h
  obtain ⟨nn, _, heq⟩ := List.mem_map.mp hs
  have : s.container_name = cn.1 := by rw [← heq]
  rw [this]
  exact List.mem_map_of_mem Prod.fst hcn

/-- C6: each gauge-sink cycle clears every previously published series before
republishing, so the state after a cycle is exactly the series of that cycle's
Inventory: a container absent from the current Resolver result has no series
left, and a failed (empty) Resolver cycle leaves an all-cleared state while
the loop goes on. -/
theorem gauge_cycle_clears_stale_series (invs : Nat → Inventory) (n : Nat)
    (c1 : String) :
    promLoop invs (n + 1) = gaugeSeries (invs (n + 1))
    ∧ (c1 ∉ (invs (n + 1)).map Prod.fst →
        ∀ s ∈ promLoop invs (n + 1), s.container_name ≠ c1)
    ∧ (invs n = [] → promLoop invs n = []) := by
  refine ⟨promLoop_eq invs (n + 1), ?_, ?_⟩
  · intro h s hs heq
    rw [promLoop_eq] at hs
    exact h (heq ▸ gaugeSeries_container_mem _ _ hs)
  · intro h
    rw [promLoop_eq, h]
    rfl

theorem gauge_cycle_clears_stale_series_witness :
    (("c1" : String) ∉
        ([("c2", [("netA", (⟨"eth0", some "10.0.0.7", some "mm"⟩ : IfaceInfo))])] :
          Inventory).map Prod.fst)
    ∧ ∀ s ∈ promLoop
          (fun k => if k = 0
            then [("c1", [("netA", (⟨"eth0", some "10.0.0.2", some "aa"⟩ : IfaceInfo))])]
            else [("c2", [("netA", (⟨"eth0", some "10.0.0.7", some "mm"⟩ : IfaceInfo))])])
          1, s.container_name ≠ "c1" := by
  refine ⟨by decide, ?_⟩
  exact (gauge_cycle_clears_stale_series
    (fun k => if k = 0
      then [("c1", [("netA", (⟨"eth0", some "10.0.0.2", some "aa"⟩ : IfaceInfo))])]
      else [("c2", [("netA", (⟨"eth0", some "10.0.0.7", some "mm"⟩ : IfaceInfo))])])
    0 "c1").2.1 (by decide)



theorem occursIn_jsonStr (s : String) : occursIn s (jsonStr s) := by
  unfold jsonStr
  exact occursIn_append_of_left _ _ _
    (occursIn_append_of_right _ _ _ (occursIn_self _))

theorem renderNet_contains (nn : String × IfaceInfo) :
    occursIn nn.1 (renderNet nn)
    ∧ occursIn nn.2.eth_interface (renderNet nn)
    ∧ occursIn (jsonOptStr nn.2.ip_address) (renderNet nn)
    ∧ occursIn (jsonOptStr nn.2.mac_address) (renderNet nn) := by
  unfold renderNet
  refine ⟨?_, ?_, ?_, ?_⟩
  · iterate 17 apply occursIn_append_of_left
    exact occursIn_append_of_right _ _ _ (occursIn_jsonStr _)
  · iterate 12 apply occursIn_append_of_left
    exact occursIn_append_of_right _ _ _ (occursIn_jsonStr _)
  · iterate 7 apply occursIn_append_of_left
    exact occursIn_append_of_right _ _ _ (occursIn_self _)
  · iterate 2 apply occursIn_append_of_left
    exact occursIn_append_of_right _ _ _ (occursIn_self _)

theorem renderContainer_contains_name (cn : String × List (String × IfaceInfo)) :
    occursIn cn.1 (renderContainer cn) := by
  unfold renderContainer
  iterate 3 apply occursIn_append_of_left
  exact occursIn_append_of_right _ _ _ (occursIn_jsonStr _)

theorem renderContainer_contains_net (cn : String × List (String × IfaceInfo))
    (nn : String × IfaceInfo) (h : nn ∈ cn.2) :
    occursIn (renderNet nn) (renderContainer cn) := by
  unfold renderContainer
  apply occursIn_append_of_left
  apply occursIn_append_of_right
  exact joinSep_mem _ _ _ (List.mem_map_of_mem renderNet h)

theorem jsonDumps_contains_container (inv : Inventory)
    (entry : String × List (String × IfaceInfo))
    (hne : inv.isEmpty = false) (h : entry ∈ inv) :
    occursIn (renderContainer entry) (jsonDumps inv) := by
  unfold jsonDumps
  rw [hne]
  simp only [Bool.false_eq_true, if_false]
  apply occursIn_append_of_left
  apply occursIn_append_of_right
  exact joinSep_mem _ _ _ (List.mem_map_of_mem renderContainer h)



/-- C7: the local-once driver consults the Resolver exactly once (its output
only depends on query index 0); a non-empty Inventory is printed as its JSON
rendering — which contains every container name, network name, synthetic
interface id and rendered address — and an empty Inventory prints exactly the
one notice line.  No loop: the output of the single cycle is the whole
output. -/
theorem local_output_one_shot (network_names : List String)
    (query : Nat → Except DockerError (List ContainerRec))
    (containers : List ContainerRec) :
    run_local_output network_names query
        = run_local_output network_names (fun _ => query 0)
    ∧ (query 0 = Except.ok containers →
        (inventoryOf network_names containers = [] →
          run_local_output network_names query
            = Except.ok ["No containers found in the specified networks."])
        ∧ (inventoryOf network_names containers ≠ [] →
          run_local_output network_names query
              = Except.ok [jsonDumps (inventoryOf network_names containers)]
          ∧ ∀ entry ∈ inventoryOf network_names containers,
              occursIn entry.1 (jsonDumps (inventoryOf network_names containers))
              ∧ ∀ att ∈ entry.2,
                  occursIn att.1
                      (jsonDumps (inventoryOf network_names containers))
                  ∧ occursIn att.2.eth_interface
                      (jsonDumps (inventoryOf network_names containers))
                  ∧ occursIn (jsonOptStr att.2.ip_address)
                      (jsonDumps (inventoryOf network_names containers))
                  ∧ occursIn (jsonOptStr att.2.mac_address)
                      (jsonDumps (inventoryOf network_names containers)))) := by
  refine ⟨rfl, ?_⟩
  intro h0
  constructor
  · intro he
    simp [run_local_output, get_container_network_interfaces, h0, he]
  · intro hne
    have hemp : (inventoryOf network_names containers).isEmpty = false := by
      cases hi : inventoryOf network_names containers with
      | nil => exact absurd hi hne
      | cons a l => rfl
    constructor
    · simp [run_local_output, get_container_network_interfaces, h0, hemp]
    · intro entry hentry
      have hcont : occursIn (renderContainer entry)
          (jsonDumps (inventoryOf network_names containers)) :=
        jsonDumps_contains_container _ _ hemp hentry
      refine ⟨occursIn_trans _ _ _ (renderContainer_contains_name entry) hcont, ?_⟩
      intro att hatt
      have hnet : occursIn (renderNet att)
          (jsonDumps (inventoryOf network_names containers)) :=
        occursIn_trans _ _ _ (renderContainer_contains_net entry att hatt) hcont
      obtain ⟨h1, h2, h3, h4⟩ := renderNet_contains att
      exact ⟨occursIn_trans _ _ _ h1 hnet, occursIn_trans _ _ _ h2 hnet,
        occursIn_trans _ _ _ h3 hnet, occursIn_trans _ _ _ h4 hnet⟩

theorem local_output_one_shot_witness :
    ((fun _ : Nat =>
        (Except.ok [(⟨"c1", [("netA", ⟨some "10.0.0.2", none⟩)]⟩ : ContainerRec)] :
          Except DockerError (List ContainerRec))) 0
      = Except.ok [(⟨"c1", [("netA", ⟨some "10.0.0.2", none⟩)]⟩ : ContainerRec)])
    ∧ inventoryOf ["netA"] [(⟨"c1", [("netA", ⟨some "10.0.0.2", none⟩)]⟩ : ContainerRec)] ≠ []
    ∧ run_local_output ["netA"]
        (fun _ => Except.ok [(⟨"c1", [("netA", ⟨some "10.0.0.2", none⟩)]⟩ : ContainerRec)])
        = Except.ok [jsonDumps (inventoryOf ["netA"]
            [(⟨"c1", [("netA", ⟨some "10.0.0.2", none⟩)]⟩ : ContainerRec)])] := by
  refine ⟨rfl, by decide, ?_⟩
  exact (((local_output_one_shot ["netA"]
    (fun _ => Except.ok [(⟨"c1", [("netA", ⟨some "10.0.0.2", none⟩)]⟩ : ContainerRec)])
    [(⟨"c1", [("netA", ⟨some "10.0.0.2", none⟩)]⟩ : ContainerRec)]).2 rfl).2 (by decide)).1



/-- C1 (code-bug evidence): in a cycle with two points, a failing write of the
first point aborts the cycle — the second point of the same cycle is never
attempted and the error propagates uncaught, terminating the loop — instead of
being logged and skipped. -/
theorem influx_write_failure_aborts_cycle :
    pointsOf [("c1", [("netA", ⟨"eth0", some "10.0.0.2", some "aa"⟩)]),
              ("c2", [("netA", ⟨"eth0", some "10.0.0.3", some "bb"⟩)])]
      = [⟨"container_network_interface", "c1", "netA", "eth0",
            some "10.0.0.2", some "aa"⟩,
         ⟨"container_network_interface", "c2", "netA", "eth0",
            some "10.0.0.3", some "bb"⟩]
    ∧ influxCycleAttempts
        (fun p => if p.container_name = "c1"
          then Except.error "connection reset" else Except.ok ())
        (pointsOf [("c1", [("netA", ⟨"eth0", some "10.0.0.2", some "aa"⟩)]),
                   ("c2", [("netA", ⟨"eth0", some "10.0.0.3", some "bb"⟩)])])
      = ([⟨"container_network_interface", "c1", "netA", "eth0",
            some "10.0.0.2", some "aa"⟩],
         some "connection reset") := by
  constructor
  · rfl
  · rfl

/-- C2 counterexample: with the URL variable unset and the other three set,
startup succeeds — the URL silently falls back to its default — so absence of
the URL does not cause the claimed startup failure. -/
theorem influx_startup_url_absent_succeeds :
    missing_vars ⟨none, some "tok", some "org1", some "bkt"⟩ = []
    ∧ influxStartup ⟨none, some "tok", some "org1", some "bkt"⟩
        = Except.ok [("url", some "http://localhost:8086"),
                     ("token", some "tok"), ("org", some "org1"),
                     ("bucket", some "bkt")] :=
  ⟨rfl, rfl⟩

/-- C2 amended: absence of any of the token, organization or bucket variables
makes startup fail with exit code 1 and a message naming exactly the missing
variables; the URL variable is read with a default and is never reported
missing. -/
theorem influx_startup_reports_missing (env : Env) :
    missing_vars env
        = (if env.influxdb_token.isNone then ["token"] else [])
          ++ (if env.influxdb_org.isNone then ["org"] else [])
          ++ (if env.influxdb_bucket.isNone then ["bucket"] else [])
    ∧ "url" ∉ missing_vars env
    ∧ (missing_vars env ≠ [] →
        influxStartup env
          = Except.error
              ("Error: Missing required environment variables: "
                 ++ joinSep ", " (missing_vars env), 1)) := by
  obtain ⟨u, t, o, b⟩ := env
  refine ⟨?_, ?_, ?_⟩
  · cases t <;> cases o <;> cases b <;> rfl
  · cases t <;> cases o <;> cases b <;> simp [missing_vars, influx_config_of]
  · intro h
    unfold influxStartup
    rw [if_neg h]

theorem influx_startup_reports_missing_witness :
    missing_vars ⟨some "http://db:8086", none, some "org1", none⟩ ≠ []
    ∧ influxStartup ⟨some "http://db:8086", none, some "org1", none⟩
        = Except.error
            ("Error: Missing required environment variables: "
               ++ joinSep ", " (missing_vars ⟨some "http://db:8086", none, some "org1", none⟩),
             1) := by
  refine ⟨by decide, ?_⟩
  exact (influx_startup_reports_missing ⟨some "http://db:8086", none, some "org1", none⟩).2.2
    (by decide)

/-- C8 counterexample: an attachment whose IP and MAC are absent from the
runtime metadata is published with label value `"None"` — neither the
empty-string nor the `"unknown"` sentinel the claim requires. -/
theorem missing_address_label_renders_None :
    inventoryOf ["netA"] [⟨"c1", [("netA", ⟨none, none⟩)]⟩]
      = [("c1", [("netA", ⟨"eth0", none, none⟩)])]
    ∧ gaugeSeries [("c1", [("netA", ⟨"eth0", none, none⟩)])]
      = [⟨"c1", "netA", "eth0", "None", "None"⟩]
    ∧ pyStr none ≠ "" ∧ pyStr none ≠ "unknown" := by
  refine ⟨rfl, rfl, by decide, by decide⟩

/-- C8 amended: a missing IP or MAC address is still published — every
attachment of the Inventory yields a series carrying both address labels — the
value being the consistent sentinel `"None"` (Python `str(None)`), not an
omitted label. -/
theorem missing_address_still_labelled (inv : Inventory)
    (entry : String × List (String × IfaceInfo)) (att : String × IfaceInfo)
    (hentry : entry ∈ inv) (hatt : att ∈ entry.2) :
    (⟨entry.1, att.1, att.2.eth_interface, pyStr att.2.ip_address,
        pyStr att.2.mac_address⟩ : SeriesLabels) ∈ gaugeSeries inv
    ∧ (att.2.ip_address = none → pyStr att.2.ip_address = "None")
    ∧ (att.2.mac_address = none → pyStr att.2.mac_address = "None") := by
  refine ⟨?_, fun h => by rw [h]; rfl, fun h => by rw [h]; rfl⟩
  unfold gaugeSeries
  rw [List.mem_flatMap]
  exact ⟨entry, hentry, List.mem_map.mpr ⟨att, hatt, rfl⟩⟩

theorem missing_address_still_labelled_witness :
    (("c1", [("netA", (⟨"eth0", none, some "02:42:0a"⟩ : IfaceInfo))])
        ∈ ([("c1", [("netA", ⟨"eth0", none, some "02:42:0a"⟩)])] : Inventory))
    ∧ (⟨"c1", "netA", "eth0", "None", "02:42:0a"⟩ : SeriesLabels)
        ∈ gaugeSeries [("c1", [("netA", ⟨"eth0", none, some "02:42:0a"⟩)])] := by
  refine ⟨by decide, ?_⟩
  exact (missing_address_still_labelled
    [("c1", [("netA", ⟨"eth0", none, some "02:42:0a"⟩)])]
    ("c1", [("netA", ⟨"eth0", none, some "02:42:0a"⟩)])
    ("netA", ⟨"eth0", none, some "02:42:0a"⟩)
    (by decide) (by decide)).1

/-- C9: `set_mode` mutates only the fields of its own variant — the
`"prometheus"` call touches `mode` and `prometheus_port` only, the
`"influxdb"` call touches `mode` and `influx_config` only, and any other mode
string changes `mode` alone. -/
theorem set_mode_frame (st : CollectorState) (kwargs : List (String × PyVal))
    (mode : String) :
    set_mode st "prometheus" kwargs
        = { st with mode := "prometheus",
                    prometheus_port := kwargsGet kwargs "port" }
    ∧ set_mode st "influxdb" kwargs
        = { st with mode := "influxdb", influx_config := some kwargs }
    ∧ (mode ≠ "prometheus" → mode ≠ "influxdb" →
        set_mode st mode kwargs = { st with mode := mode }) := by
  refine ⟨rfl, rfl, ?_⟩
  intro h1 h2
  unfold set_mode
  rw [if_neg h1, if_neg h2]

theorem set_mode_frame_witness :
    ("local" : String) ≠ "prometheus" ∧ ("local" : String) ≠ "influxdb"
    ∧ set_mode (init ["bridge", "host"]) "local" []
        = { init ["bridge", "host"] with mode := "local" } := by
  refine ⟨by decide, by decide, ?_⟩
  exact (set_mode_frame (init ["bridge", "host"]) [] "local").2.2
    (by decide) (by decide)

/-- C10: the dispatcher treats every mode other than `"prometheus"` and
`"influxdb"` as local-once; a freshly constructed collector starts in mode
`"local"` and dispatches to the single-shot local output path. -/
theorem run_defaults_to_local (network_names : List String)
    (st : CollectorState) :
    (init network_names).mode = "local"
    ∧ run (init network_names) = RunPath.localOutput
    ∧ (st.mode ≠ "prometheus" → st.mode ≠ "influxdb" →
        run st = RunPath.localOutput) := by
  refine ⟨rfl, rfl, ?_⟩
  intro h1 h2
  unfold run
  rw [if_neg h1, if_neg h2]

theorem run_defaults_to_local_witness :
    (({ network_names := ["bridge"], mode := "weird", prometheus_port := none,
        influx_config := none } : CollectorState).mode ≠ "prometheus")
    ∧ run { network_names := ["bridge"], mode := "weird",
            prometheus_port := none, influx_config := none }
        = RunPath.localOutput := by
  refine ⟨by decide, ?_⟩
  exact (run_defaults_to_local ["bridge"]
    { network_names := ["bridge"], mode := "weird", prometheus_port := none,
      influx_config := none }).2.2 (by decide) (by decide)


theorem resolver_allow_list_witness :
    ((get_container_network_interfaces ["netA"]
        (Except.ok [⟨"c0", [("other", ⟨none, none⟩)]⟩,
                    ⟨"c2", [("netA", ⟨some "10.0.0.5", some "mm"⟩)]⟩])).1
      = Except.ok [("c2", [("netA", ⟨"eth0", some "10.0.0.5", some "mm"⟩)])])
    ∧ relevantNetworks ["netA"] ⟨"c0", [("other", ⟨none, none⟩)]⟩ = []
    ∧ ("c2" : String) ≠ "c0" := by
  refine ⟨rfl, by decide, ?_⟩
  exact (resolver_allow_list ["netA"]
      (Except.ok [⟨"c0", [("other", ⟨none, none⟩)]⟩,
                  ⟨"c2", [("netA", ⟨some "10.0.0.5", some "mm"⟩)]⟩])
      [("c2", [("netA", ⟨"eth0", some "10.0.0.5", some "mm"⟩)])] rfl).2
    [⟨"c0", [("other", ⟨none, none⟩)]⟩,
     ⟨"c2", [("netA", ⟨some "10.0.0.5", some "mm"⟩)]⟩] rfl (by decide)
    ⟨"c0", [("other", ⟨none, none⟩)]⟩ (by decide) (by decide)
    ("c2", [("netA", ⟨"eth0", some "10.0.0.5", some "mm"⟩)]) (by decide)

end DNC
